import Mathlib

/-!
Shallow embedding of the agentic reasoning core of the `agentkg-research`
repository (`src/agent.py`, `src/cypher_generator.py`, `src/search_kg.py`),
together with theorems settling the frozen claims about it.

Modelling conventions:
* Python strings are Lean `String`s; character-level work happens on `List Char`.
  `str.lower` / `str.upper` / `str.strip` are modelled on the ASCII range (the
  denylist keywords, markers and phrases the code matches are all ASCII).
* The external LLM service (`_call_llm` / `_call_ollama`) is a parameter
  `llm : String → String` mapping a prompt to the response text; the adapters
  in the source already convert every transport failure into the empty string,
  so a total function is the faithful boundary.  Sampling options
  (temperature, token caps) do not influence control flow and are not modelled.
* `json.loads` (an external library) is a parameter
  `loads : List Char → Option JVal`: `none` models a parse exception.
* The Neo4j store is modelled by an explicit graph value `DB`; each predefined
  Cypher query of `search_kg.py` is translated to a Lean function over `DB`.
* Wall-clock latency (`latency_s`) and logging are not modelled.
-/

/-! ### ASCII string utilities (models of Python `str` operations) -/

def toLowerAscii (c : Char) : Char :=
  if 'A' ≤ c ∧ c ≤ 'Z' then Char.ofNat (c.toNat + 32) else c

def toUpperAscii (c : Char) : Char :=
  if 'a' ≤ c ∧ c ≤ 'z' then Char.ofNat (c.toNat - 32) else c

def lowerStr (s : String) : String := String.mk (s.data.map toLowerAscii)

def upperChars (l : List Char) : List Char := l.map toUpperAscii

/-- Whitespace for Python `str.strip` / `str.split` and for `re`'s `\s`
(ASCII: space, tab, newline, carriage return, vertical tab, form feed). -/
def isSpacePy (c : Char) : Bool :=
  c = ' ' ∨ c = '\t' ∨ c = '\n' ∨ c = '\r' ∨ c = Char.ofNat 11 ∨ c = Char.ofNat 12

def stripChars (l : List Char) : List Char :=
  ((l.dropWhile isSpacePy).reverse.dropWhile isSpacePy).reverse

def stripStr (s : String) : String := String.mk (stripChars s.data)

/-- `needle` occurs at the head of `hay`. -/
def isPrefixL : List Char → List Char → Bool
  | [], _ => true
  | _ :: _, [] => false
  | n :: ns, h :: hs => n == h && isPrefixL ns hs

/-- Python `needle in hay` (contiguous substring test). -/
def containsSub (hay needle : List Char) : Bool :=
  match hay with
  | [] => needle.isEmpty
  | _ :: t => isPrefixL needle hay || containsSub t needle

def strContains (hay needle : String) : Bool := containsSub hay.data needle.data

/-- Word characters for `re`'s `\b` (ASCII fragment of `\w`). -/
def isWordChar (c : Char) : Bool :=
  ('A' ≤ c ∧ c ≤ 'Z') ∨ ('a' ≤ c ∧ c ≤ 'z') ∨ ('0' ≤ c ∧ c ≤ '9') ∨ c = '_'

/-- `needle` occurs at the head of the text and the character following it (if
any) is not a word character: the tail part of a `\b<needle>\b` match. -/
def wordPrefix : List Char → List Char → Bool
  | [], [] => true
  | [], h :: _ => !isWordChar h
  | _ :: _, [] => false
  | n :: ns, h :: hs => n == h && wordPrefix ns hs

def containsWordAux (needle : List Char) (prevIsWord : Bool) : List Char → Bool
  | [] => false
  | h :: t =>
    (!prevIsWord && wordPrefix needle (h :: t)) || containsWordAux needle (isWordChar h) t

/-- `re.search(rf"\b{needle}\b", hay)` succeeds (whole-word occurrence). -/
def containsWord (hay needle : List Char) : Bool := containsWordAux needle false hay

/-- Decimal digits of a natural number (Python `str(n)` for `n ≥ 0`); the fuel
argument makes the recursion structural so that terms reduce by `rfl`. -/
def natToCharsAux : Nat → Nat → List Char
  | 0, _ => []
  | fuel + 1, n =>
    if n < 10 then [Char.ofNat (48 + n)]
    else natToCharsAux fuel (n / 10) ++ [Char.ofNat (48 + n % 10)]

def natStr (n : Nat) : String := String.mk (natToCharsAux (n + 1) n)

/-- Python `str` of an `int`. -/
def intStr (i : Int) : String :=
  if i < 0 then "-" ++ natStr i.natAbs else natStr i.natAbs

/-- Python `str.split()` (split on whitespace runs, dropping empty pieces). -/
def splitWsAux : List Char → List Char → List String
  | [], acc => if acc.isEmpty then [] else [String.mk acc.reverse]
  | c :: t, acc =>
    if isSpacePy c then
      if acc.isEmpty then splitWsAux t [] else String.mk acc.reverse :: splitWsAux t []
    else splitWsAux t (c :: acc)

def splitWs (s : String) : List String := splitWsAux s.data []

/-! ### Python scalar values and result records

A `Record` models one record mapping returned by `Neo4jConnection.execute_query`
(and consumed by `_summarize_observation`).  Aggregated `collect(DISTINCT …)`
columns are string lists. -/

inductive PyVal where
  | vstr (s : String)
  | vint (n : Int)
  | vnone
  /-- Python floats are not modelled bit-precisely: a float is carried as the
  decimal text it renders to (after the `round(·, 1)` applied by the code). -/
  | vfloat (rendered : String)
  | vlist (l : List String)
deriving DecidableEq, Repr

def Record : Type := List (String × PyVal)

instance : DecidableEq Record := inferInstanceAs (DecidableEq (List (String × PyVal)))

def pyGet (r : Record) (k : String) : Option PyVal :=
  (r.find? (fun kv => kv.1 == k)).map (·.2)

def pyGetD (r : Record) (k : String) (d : PyVal) : PyVal := (pyGet r k).getD d

/-- Python truthiness.  (`vfloat` never reaches a truthiness test in the
modelled flows; it is treated as truthy.) -/
def pyTruthy : PyVal → Bool
  | .vstr s => !s.isEmpty
  | .vint n => !(n == 0)
  | .vnone => false
  | .vfloat _ => true
  | .vlist l => !l.isEmpty

/-- Python `str(x)` as used by f-string interpolation. -/
def pyFmt : PyVal → String
  | .vstr s => s
  | .vint n => intStr n
  | .vnone => "None"
  | .vfloat s => s
  | .vlist l =>
    "[" ++ String.intercalate ", " (l.map (fun x => "'" ++ x ++ "'")) ++ "]"

/-- Python `repr(x)` (strings quoted), as used inside `str` of a dict. -/
def pyRepr : PyVal → String
  | .vstr s => "'" ++ s ++ "'"
  | v => pyFmt v

/-- Python `str` of a dict value (`str({...})`). -/
def pyReprRecord (r : Record) : String :=
  "\x7b" ++ String.intercalate ", "
    (r.map (fun kv => "'" ++ kv.1 ++ "': " ++ pyRepr kv.2)) ++ "\x7d"

/-- `title[:70]`: Python slicing of the displayed title.  The source raises
`TypeError` when the value is not sliceable (never the case for records built
by the search tools, whose titles are strings); non-string values are rendered
instead of raising. -/
def pySlice70 : PyVal → String
  | .vstr s => String.mk (s.data.take 70)
  | v => pyFmt v

/-! ### JSON values (results of the external `json.loads`) -/

/-- A value returned by `json.loads`, one constructor per Python result type
(`str`, `int`, `float`, `bool`, `None`, `list`, `dict`), so that truthiness,
membership tests and hashability are determined. -/
inductive JVal where
  | jstr (s : String)
  | jnum (n : Int)
  /-- A JSON float, carried as the decimal text Python renders it to. -/
  | jfloat (rendered : String)
  | jbool (b : Bool)
  | jnull
  | jarr (elems : List JVal)
  | jdict (fields : List (String × JVal))
deriving Repr

def JObj : Type := List (String × JVal)

instance : Repr JObj := inferInstanceAs (Repr (List (String × JVal)))

def jlookup (o : JObj) (k : String) : Option JVal :=
  (o.find? (fun kv => kv.1 == k)).map (·.2)

def jlookupV (v : JVal) (k : String) : Option JVal :=
  match v with
  | .jdict o => jlookup o k
  | _ => none

/-- Python falsiness of a parsed JSON value (`not result`).  The only falsy
floats are positive and negative zero, whose reprs are `0.0` and `-0.0`. -/
def jvalFalsy : JVal → Bool
  | .jstr s => s.isEmpty
  | .jnum n => n == 0
  | .jfloat s => s == "0.0" || s == "-0.0"
  | .jbool b => !b
  | .jnull => true
  | .jarr l => l.isEmpty
  | .jdict o => o.isEmpty

/-! ### Structured-response parser
(`CypherGenerator._extract_json`, `ResearchAgent._parse_json`)

Both source functions implement the same three-strategy extraction; the shared
model is `extract_json`, parameterized over the external `json.loads`. -/

def fenceMark : List Char := "\x60\x60\x60".data

def jsonTag : List Char := "json".data

/-- Suffix of `l` after the first occurrence of the ``` fence marker. -/
def afterFirstFence : List Char → Option (List Char)
  | [] => none
  | c :: t =>
    if isPrefixL fenceMark (c :: t) then some ((c :: t).drop 3) else afterFirstFence t

/-- Content up to (excluding) the next occurrence of the fence marker;
`none` when the closing fence is missing. -/
def takeUntilFence : List Char → Option (List Char)
  | [] => none
  | c :: t =>
    if isPrefixL fenceMark (c :: t) then some []
    else (takeUntilFence t).map (fun r => c :: r)

/-- Captured group of `re.search(r"```(?:json)?\s*(.*?)```", text, re.DOTALL)`:
the first fenced code block, with an optional `json` tag and leading whitespace
removed. -/
def fencedContent (l : List Char) : Option (List Char) :=
  match afterFirstFence l with
  | none => none
  | some rest =>
    let rest := if isPrefixL jsonTag rest then rest.drop 4 else rest
    takeUntilFence (rest.dropWhile isSpacePy)

/-- Matched text of `re.search(r"\{.*\}", text, re.DOTALL)` (greedy): the span
from the first opening brace to the last closing brace, when the latter follows
the former. -/
def braceSpan (l : List Char) : Option (List Char) :=
  let l1 := l.dropWhile (fun c => c ≠ Char.ofNat 123)
  let l2 := (l1.reverse.dropWhile (fun c => c ≠ Char.ofNat 125)).reverse
  if l2.isEmpty then none else some l2

/-- `CypherGenerator._extract_json`: strategy (a) parse the stripped text
whole; (b) parse the stripped content of the first fenced block; (c) parse the
first-to-last brace span.  Exceptions of `json.loads` are `none` results of
`loads`; the function itself never fails. -/
def extract_json {J : Type} (loads : List Char → Option J) (text : List Char) : Option J :=
  let text := stripChars text
  match loads text with
  | some j => some j
  | none =>
    match fencedContent text with
    | some content =>
      match loads (stripChars content) with
      | some j => some j
      | none =>
        match braceSpan text with
        | some m =>
          match loads m with
          | some j => some j
          | none => none
        | none => none
    | none =>
      match braceSpan text with
      | some m =>
        match loads m with
        | some j => some j
        | none => none
      | none => none

/-- `ResearchAgent._parse_json` implements the identical three-strategy
extraction (agent.py lines 534-560); it shares the model. -/
def parse_json {J : Type} (loads : List Char → Option J) (text : List Char) : Option J :=
  extract_json loads text

/-! ### Query Generation Adapter (`cypher_generator.py`) -/

def BLOCKED_CYPHER_KEYWORDS : List String :=
  ["DROP", "DELETE", "DETACH", "REMOVE", "SET", "CREATE", "MERGE"]

/-- `CypherGenerator._safety_check`: first denylisted keyword occurring as a
whole word in the upper-cased query, rendered as the error message; `none`
when the query is safe. -/
def safety_check (cypher : String) : Option String :=
  (BLOCKED_CYPHER_KEYWORDS.find?
      (fun kw => containsWord (upperChars cypher.data) kw.data)).map
    (fun kw => "Blocked: Cypher contains write operation '" ++ kw ++ "'")

/-- `CypherGenerator._build_prompt`. -/
def build_prompt (question schema : String) : String :=
  "You are a Neo4j expert. Generate a READ-ONLY Cypher query.\n\nGRAPH SCHEMA:\n"
  ++ schema ++ "\n\nQUESTION: " ++ question ++ "\n\nRules:\n"
  ++ "1. Only use MATCH, WHERE, RETURN, ORDER BY, LIMIT\n"
  ++ "2. NEVER use CREATE, DELETE, SET, MERGE, REMOVE, DROP\n"
  ++ "3. Always LIMIT to 20 results max\n"
  ++ "4. Use toLower() for case-insensitive string matching\n"
  ++ "5. Return meaningful property names\n\n"
  ++ "Respond with ONLY this JSON and nothing else:\n"
  ++ "\x7b\"cypher\": \"MATCH ...\", \"explanation\": \"one sentence explaining what this does\"\x7d"

/-- `CypherGenerator._build_simple_prompt` (the retry prompt). -/
def build_simple_prompt (question : String) : String :=
  "Write a Neo4j Cypher MATCH query for: \"" ++ question ++ "\"\n\n"
  ++ "Use nodes: Paper (title, year, citation_count), Author (name), Topic (name), Institution (name)\n"
  ++ "Use relationships: WROTE, ABOUT, CITES, AFFILIATED_WITH\n\nReturn JSON only:\n"
  ++ "\x7b\"cypher\": \"MATCH (p:Paper) RETURN p.title LIMIT 10\", \"explanation\": \"brief explanation\"\x7d"

/-- `not result or "cypher" not in result` on an extraction result.
`none` (a parse failure) and every falsy value short-circuit to `true`.
Otherwise Python's `in` decides: a key test on a dict, a substring test on a
string, an element test on a list (string equality; `==` between `"cypher"`
and a non-string is `False`).  On a truthy number or boolean `in` raises
`TypeError` (`.error`), which the source's generic handler catches. -/
def missing_cypher : Option JVal → Except Unit Bool
  | none => .ok true
  | some v =>
    if jvalFalsy v then .ok true
    else
      match v with
      | .jdict o => .ok (jlookup o "cypher").isNone
      | .jstr s => .ok (!containsSub s.data "cypher".data)
      | .jarr l =>
        .ok (!(l.any fun e => match e with | .jstr s => s == "cypher" | _ => false))
      | _ => .error ()

/-- Error result of a double extraction failure. -/
def fail_dict : JObj :=
  [("cypher", JVal.jnull), ("explanation", JVal.jstr "Failed after retry"),
   ("error", JVal.jstr "JSON parse failed both attempts")]

/-- Result of `generate_cypher`'s `except Exception` handler, reached when the
`"cypher" not in result` test raises (truthy number/boolean), when the
subscript `result["cypher"]` raises (string/list result), or when
`cypher.upper()` raises (non-string `cypher` value).  The source stores
`str(e)`; the exception text is not modelled. -/
def exn_dict : JObj :=
  [("cypher", JVal.jnull), ("explanation", JVal.jstr "exception"),
   ("error", JVal.jstr "exception")]

/-- `CypherGenerator.generate_cypher` (provider fixed to the `"ollama"` branch,
as constructed by the agent).  A raise inside either membership test aborts to
the handler before any retry beyond the first can happen. -/
def generate_cypher (loads : List Char → Option JVal) (llm : String → String)
    (question schema : String) : JObj :=
  let r1 := extract_json loads (llm (build_prompt question schema)).data
  match missing_cypher r1 with
  | .error _ => exn_dict
  | .ok b1 =>
    let r := if b1 then extract_json loads (llm (build_simple_prompt question)).data
             else r1
    match missing_cypher r with
    | .error _ => exn_dict
    | .ok b2 =>
      if b2 then fail_dict
      else
        match r with
        | some (.jdict o) =>
          match jlookup o "cypher" with
          | some (.jstr c) =>
            match safety_check c with
            | some msg =>
              [("cypher", JVal.jnull), ("explanation", JVal.jstr msg),
               ("error", JVal.jstr "unsafe_query")]
            | none => o
          | _ => exn_dict   -- non-string `cypher` value: `.upper()` raises
        | _ => exn_dict     -- string/list result: `result["cypher"]` raises

/-! ### Knowledge graph store and predefined searches (`search_kg.py`)

The store is a concrete graph value.  Each search function models the result
of its Cypher query: one row per match of the `MATCH` pattern, projected as a
`Record`, ordered by `citation_count DESC` (Neo4j sorts `null` first in
descending order).  The grouping induced by the aggregation keys coincides with
one row per matched paper when the projected paper fields are pairwise
distinct, which holds for every store used below. -/

structure Paper where
  paper_id : String
  title : String
  abstract : String
  year : Option Int
  citation_count : Option Int
deriving DecidableEq, Repr

structure DB where
  papers : List Paper
  /-- `(author_id, name)` pairs. -/
  authors : List (String × String)
  /-- `(inst_id, name)` pairs. -/
  institutions : List (String × String)
  /-- `WROTE` edges `(author_id, paper_id)`. -/
  wrote : List (String × String)
  /-- `AFFILIATED_WITH` edges `(author_id, inst_id)`. -/
  affiliated : List (String × String)
  /-- `ABOUT` edges `(paper_id, topic_name)`. -/
  about : List (String × String)
deriving Repr

/-- `collect(DISTINCT …)`: deduplicate keeping first occurrences. -/
def distinctCollect (seen : List String) : List String → List String
  | [] => []
  | x :: t =>
    if seen.contains x then distinctCollect seen t
    else x :: distinctCollect (x :: seen) t

def paperAuthors (db : DB) (p : Paper) : List String :=
  distinctCollect []
    ((db.wrote.filter (fun e => e.2 == p.paper_id)).filterMap
      (fun e => (db.authors.find? (fun a => a.1 == e.1)).map (·.2)))

def paperTopics (db : DB) (p : Paper) : List String :=
  distinctCollect [] ((db.about.filter (fun e => e.1 == p.paper_id)).map (·.2))

def paperInstitutions (db : DB) (p : Paper) : List String :=
  distinctCollect []
    (((db.wrote.filter (fun e => e.2 == p.paper_id)).map (·.1)).flatMap
      (fun aid =>
        (db.affiliated.filter (fun e => e.1 == aid)).filterMap
          (fun e => (db.institutions.find? (fun i => i.1 == e.1)).map (·.2))))

def optIntVal : Option Int → PyVal
  | some n => .vint n
  | none => .vnone

/-- `ORDER BY p.citation_count DESC` key comparison: `x` sorts no later than
`y` (null counts as largest, hence first in descending order). -/
def citGE (x y : Option Int) : Bool :=
  match x, y with
  | none, _ => true
  | some _, none => false
  | some a, some b => b ≤ a

def sortByCitationsDesc (l : List Paper) : List Paper :=
  l.insertionSort (fun p q => citGE p.citation_count q.citation_count)

/-- `WHERE` clause of `search_papers_by_keyword`. -/
def paper_matches (kw : String) (p : Paper) : Bool :=
  strContains (lowerStr p.title) (lowerStr kw) ||
  strContains (lowerStr p.abstract) (lowerStr kw)

def keywordRecordOf (db : DB) (p : Paper) : Record :=
  [("title", .vstr p.title), ("year", optIntVal p.year),
   ("citations", optIntVal p.citation_count), ("abstract", .vstr p.abstract),
   ("authors", .vlist (paperAuthors db p)), ("topics", .vlist (paperTopics db p)),
   ("institutions", .vlist (paperInstitutions db p))]

/-- `KnowledgeGraphSearch.search_papers_by_keyword`: every matching paper, no
`LIMIT` clause. -/
def search_papers_by_keyword (db : DB) (keyword : String) : List Record :=
  (sortByCitationsDesc (db.papers.filter (paper_matches keyword))).map
    (keywordRecordOf db)

def mostCitedRecordOf (db : DB) (p : Paper) : Record :=
  [("title", .vstr p.title), ("year", optIntVal p.year),
   ("citations", optIntVal p.citation_count),
   ("authors", .vlist (paperAuthors db p)), ("topics", .vlist (paperTopics db p)),
   ("institutions", .vlist (paperInstitutions db p))]

/-- `KnowledgeGraphSearch.get_most_cited_papers`: papers with a non-null
citation count, most cited first, truncated by `LIMIT $limit`. -/
def get_most_cited_papers (db : DB) (limit : Nat) : List Record :=
  ((sortByCitationsDesc (db.papers.filter
      (fun p => !p.citation_count.isNone))).take limit).map (mostCitedRecordOf db)

/-- Matches of the `(i)<-[:AFFILIATED_WITH]-(a)-[:WROTE]->(p)` pattern of
`search_by_institution`, one per path. -/
def inst_triples (db : DB) (institution_name : String) :
    List ((String × String) × (String × String) × Paper) :=
  (db.institutions.filter
      (fun i => strContains (lowerStr i.2) (lowerStr institution_name))).flatMap
    (fun i =>
      (db.authors.filter (fun a => db.affiliated.contains (a.1, i.1))).flatMap
        (fun a =>
          (db.papers.filter (fun p => db.wrote.contains (a.1, p.paper_id))).map
            (fun p => (i, a, p))))

def instRecordOf (db : DB) (t : (String × String) × (String × String) × Paper) : Record :=
  [("institution", .vstr t.1.2), ("author", .vstr t.2.1.2),
   ("title", .vstr t.2.2.title), ("year", optIntVal t.2.2.year),
   ("citations", optIntVal t.2.2.citation_count),
   ("topics", .vlist (paperTopics db t.2.2))]

/-- `KnowledgeGraphSearch.search_by_institution`: one record per matched path,
no `LIMIT` clause. -/
def search_by_institution (db : DB) (institution_name : String) : List Record :=
  ((inst_triples db institution_name).insertionSort
      (fun x y => citGE x.2.2.citation_count y.2.2.citation_count)).map
    (instRecordOf db)

/-! ### ReAct agent (`agent.py`) -/

def MAX_STEPS : Nat := 3

/-- Python `repr` of a parsed JSON value (list elements and dict entries
rendered recursively). -/
def jvalRepr : JVal → String
  | .jstr s => "'" ++ s ++ "'"
  | .jnum n => intStr n
  | .jfloat s => s
  | .jbool b => if b then "True" else "False"
  | .jnull => "None"
  | .jarr l =>
    "[" ++ String.intercalate ", " (l.attach.map (fun e => jvalRepr e.1)) ++ "]"
  | .jdict l =>
    "\x7b" ++ String.intercalate ", "
      (l.attach.map (fun kv => "'" ++ kv.1.1 ++ "': " ++ jvalRepr kv.1.2)) ++ "\x7d"
decreasing_by
  · have h := List.sizeOf_lt_of_mem e.2
    simp at h ⊢
    omega
  · obtain ⟨⟨a, b⟩, hm⟩ := kv
    have h := List.sizeOf_lt_of_mem hm
    simp at h ⊢
    omega

/-- Python `str` of a parsed JSON value (f-string interpolation). -/
def jvalFmt : JVal → String
  | .jstr s => s
  | v => jvalRepr v

/-- Raw tool output: either a record list or a dict (statistics). -/
inductive Obs where
  | olist (rs : List Record)
  | odict (d : Record)
deriving DecidableEq

/-- One thought-chain entry as appended by `run` (`thought`, `action` and
`args` hold the values taken from the decision dict). -/
structure StepRec where
  step : Nat
  thought : JVal
  action : JVal
  args : JVal
  observation : String
  raw_results : Obs

/-- One entry of `all_observations`. -/
structure ObsRec where
  tool : JVal
  args : JVal
  results : Obs
  summary : String

/-- `TOOLS_DESCRIPTION` (agent.py lines 46-77); the triple-quoted literal
starts and ends with a newline. -/
def TOOLS_DESCRIPTION : String := "
You have access to these tools to search a research paper knowledge graph:

1. keyword_search(query: str)
   Use when: General question about a topic, concept, or theme
   Example: keyword_search(\"graph neural networks\")

2. author_search(name: str)
   Use when: Question mentions a specific researcher or asks \"who wrote\"
   Example: author_search(\"Sarah Johnson\")

3. institution_search(name: str)
   Use when: Question mentions a university, college, or research lab
   Example: institution_search(\"IIT Tirupati\")

4. topic_search(topic: str)
   Use when: Question asks about a specific research field or topic node
   Example: topic_search(\"Deep Learning\")

5. cypher_search(question: str)
   Use when: Question has numeric filters (citations > X), date filters (after 2020),
             comparisons (more than, less than), or complex multi-condition queries
   Example: cypher_search(\"papers with more than 500 citations published after 2021\")

6. get_statistics()
   Use when: Question asks \"how many\", \"total\", \"count\", \"statistics\", \"overview\"
   Example: get_statistics()

7. FINISH(answer: str)
   Use when: You have enough information to answer the question completely
   Example: FINISH(\"Based on the results, the top papers are...\")
"

/-! #### Action Planner (`_decide_action`) -/

def count_phrases : List String := ["how many", "total", "count", "statistics", "overview"]

def inst_phrases : List String := ["iit", "mit", "stanford", "university", "institution", "college"]

/-- Character class `[A-Za-z ]` of the institution-name capture. -/
def instClass (c : Char) : Bool :=
  ('A' ≤ c ∧ c ≤ 'Z') ∨ ('a' ≤ c ∧ c ≤ 'z') ∨ c = ' '

/-- Case-insensitive literal prefix match (`re.I`). -/
def ciPrefix : List Char → List Char → Bool
  | [], _ => true
  | _ :: _, [] => false
  | p :: ps, c :: cs => (toLowerAscii p == toLowerAscii c) && ciPrefix ps cs

/-- After at least one whitespace character has been consumed: more `\s` or one
of the stop words `paper|author|research`. -/
def stopRest : List Char → Bool
  | [] => false
  | c :: t =>
    ciPrefix "paper".data (c :: t) || ciPrefix "author".data (c :: t) ||
    ciPrefix "research".data (c :: t) || (isSpacePy c && stopRest t)

/-- `\s+(?:paper|author|research)` matches at the head of the list. -/
def stopTail : List Char → Bool
  | [] => false
  | c :: t => isSpacePy c && stopRest t

/-- Lazy capture of `([A-Za-z ]+?)` followed by the stop group or `$` (Python's
`$` also matches just before a single trailing newline). -/
def captureLazy (acc : List Char) : List Char → Option (List Char)
  | [] => none
  | c :: t =>
    if instClass c then
      if t = [] ∨ t = ['\n'] ∨ stopTail t then some ((c :: acc).reverse)
      else captureLazy (c :: acc) t
    else none

/-- Leftmost match of
`re.search(r"from ([A-Za-z ]+?)(?:\s+(?:paper|author|research)|$)", q, re.I)`,
returning the captured group. -/
def instSearch : List Char → Option (List Char)
  | [] => none
  | c :: t =>
    if ciPrefix "from ".data (c :: t) then
      match captureLazy [] ((c :: t).drop 5) with
      | some g => some g
      | none => instSearch t
    else instSearch t

/-- `inst_match.group(1).strip() if inst_match else "IIT"`. -/
def inst_extract (question : String) : String :=
  match instSearch question.data with
  | some g => String.mk (stripChars g)
  | none => "IIT"

def stats_decision : JObj :=
  [("thought", JVal.jstr "Question asks for counts/statistics — using get_statistics directly."),
   ("tool", JVal.jstr "get_statistics"), ("args", JVal.jdict [])]

def inst_decision (question : String) : JObj :=
  [("thought", JVal.jstr "Question asks about an institution — using institution_search."),
   ("tool", JVal.jstr "institution_search"),
   ("args", JVal.jdict [("name", JVal.jstr (inst_extract question))])]

def finish_decision : JObj :=
  [("thought", JVal.jstr "I already have sufficient results from the previous step."),
   ("tool", JVal.jstr "FINISH"), ("args", JVal.jdict [])]

def fallback_decision (question : String) : JObj :=
  let words := (splitWs question).filter (fun w => 3 < w.length)
  let query := if words.isEmpty then question else String.intercalate " " (words.take 4)
  [("thought", JVal.jstr "Falling back to keyword search"),
   ("tool", JVal.jstr "keyword_search"),
   ("args", JVal.jdict [("query", JVal.jstr query)])]

/-- `thought_chain[-1].get("observation", "")` (empty for an empty chain; the
source guards with `and thought_chain`). -/
def last_observation : List StepRec → String
  | [] => ""
  | [e] => e.observation
  | _ :: t => last_observation t

def build_history (chain : List StepRec) : String :=
  if chain.isEmpty then ""
  else
    "\n\nPREVIOUS STEPS:\n" ++ String.join (chain.map (fun s =>
      "Step " ++ natStr s.step ++ ":\n  Thought: " ++ jvalFmt s.thought
      ++ "\n  Action : " ++ jvalFmt s.action ++ "(" ++ jvalFmt s.args
      ++ ")\n  Result : " ++ s.observation ++ "\n"))

def action_prompt (question history : String) (step_number : Nat) : String :=
  "You are a research assistant agent. Your job is to find information about research papers.\n\n"
  ++ TOOLS_DESCRIPTION ++ "\n" ++ history ++ "\n\nQUESTION: " ++ question
  ++ "\nSTEP: " ++ natStr step_number ++ " of " ++ natStr MAX_STEPS ++ "\n\n"
  ++ (if step_number == MAX_STEPS then
        "IMPORTANT: This is your last step. You MUST use FINISH now." else "")
  ++ "\n\nThink about what information you need, then choose ONE tool.\n"
  ++ "If you already have enough information from previous steps, use FINISH.\n\n"
  ++ "Respond with ONLY this JSON:\n\x7b\n  \"thought\": \"I need to ... because ...\",\n"
  ++ "  \"tool\": \"tool_name_here\",\n  \"args\": \x7b\"arg_name\": \"arg_value\"\x7d\n\x7d\n\n"
  ++ "For get_statistics, use: \"args\": \x7b\x7d\n"
  ++ "For FINISH, use: \"args\": \x7b\"answer\": \"brief summary\"\x7d\n"

/-- The LLM branch of `_decide_action`: prompt the model, parse, fall back to
a keyword-search decision when nothing truthy was parsed. -/
def llm_decide (llm : String → String) (loads : List Char → Option JVal)
    (question : String) (chain : List StepRec) (step_number : Nat) : JVal :=
  let raw := llm (action_prompt question (build_history chain) step_number)
  match parse_json loads raw.data with
  | some v => if jvalFalsy v then JVal.jdict (fallback_decision question) else v
  | none => JVal.jdict (fallback_decision question)

/-- `ResearchAgent._decide_action`. -/
def decide_action (llm : String → String) (loads : List Char → Option JVal)
    (question : String) (chain : List StepRec) (step_number : Nat) : JVal :=
  if step_number == 1 && count_phrases.any (fun w => strContains (lowerStr question) w) then
    JVal.jdict stats_decision
  else if step_number == 1 && inst_phrases.any (fun w => strContains (lowerStr question) w) then
    JVal.jdict (inst_decision question)
  else if decide (2 ≤ step_number) && !chain.isEmpty
          && strContains (last_observation chain) "Found"
          && !strContains (last_observation chain) "0 results" then
    JVal.jdict finish_decision
  else llm_decide llm loads question chain step_number

/-! #### Tool Registry & Executor (`_execute_tool`) -/

/-- Exceptions distinguished by the executor's handlers. -/
inductive PyErr where
  | typeError
  | otherError
deriving DecidableEq

/-- A registered tool as seen by the executor: a keyword-argument call
(`tool(**args)`) and a single positional call (`tool(first_val)`).  An
argument-shape mismatch and a `TypeError` raised inside the tool body are both
`typeError`; every other raised exception is `otherError`. -/
structure ToolImpl where
  kwcall : JObj → Except PyErr Obs
  poscall : JVal → Except PyErr Obs

/-- `list(tool_args.values())[0] if tool_args else ""`: the empty string for
every falsy value (of any type), the first value for a non-empty mapping; a
truthy non-mapping makes `.values()` raise (`.error`). -/
def first_val : JVal → Except Unit JVal
  | .jdict [] => .ok (JVal.jstr "")
  | .jdict (kv :: _) => .ok kv.2
  | v => if jvalFalsy v then .ok (JVal.jstr "") else .error ()

/-- `ResearchAgent._execute_tool`.  `env` is the tool registry (`self.tools`);
`toolv` and `argsv` are the values taken from the decision dict.  An unhashable
tool value (dict or list) makes `tool_name not in self.tools` raise
`TypeError`; the positional retry then raises again at the registry subscript
`self.tools[tool_name]` (or already at `tool_args.values()`), so the source
returns `[]`.  Every exception path of the source ends in a returned value,
never a raise. -/
def execute_tool (env : String → Option ToolImpl) (toolv argsv : JVal) : Obs :=
  match toolv with
  | .jdict _ => Obs.olist []   -- unhashable name: membership and retry both raise
  | .jarr _ => Obs.olist []    -- unhashable name: membership and retry both raise
  | _ =>
    -- `if tool_name not in self.tools:` — substitute keyword_search
    let resolved : Except Unit (String × JVal) :=
      match toolv with
      | .jstr s =>
        if (env s).isSome then .ok (s, argsv)
        else (first_val argsv).map (fun v => ("keyword_search", JVal.jdict [("query", v)]))
      | _ => (first_val argsv).map (fun v => ("keyword_search", JVal.jdict [("query", v)]))
    match resolved with
    | .error _ => Obs.olist []       -- rewrite itself raised: outer `except Exception`
    | .ok (name, args) =>
      match env name with
      | none => Obs.olist []         -- lookup failure: outer `except Exception`
      | some impl =>
        match (match args with
               | .jdict o => impl.kwcall o
               | _ => .error PyErr.typeError) with  -- `f(**non_mapping)` raises TypeError
        | .ok r => r
        | .error PyErr.typeError =>
          -- `except TypeError:` — one positional retry with the first value
          match first_val args with
          | .error _ => Obs.olist [] -- retry preparation raised: inner `except Exception`
          | .ok v =>
            match impl.poscall v with
            | .ok r => r
            | .error _ => Obs.olist []
        | .error PyErr.otherError => Obs.olist []

/-! #### Observation summaries and sufficiency -/

/-- `round(x, 1)` as rendered into the statistics summary (`round` of an int is
the int itself; floats carry their rendering; anything else raises in the
source and is rendered instead). -/
def round1Fmt : PyVal → String
  | .vint n => intStr n
  | .vfloat s => s
  | v => pyFmt v

/-- One numbered line of the record-list summary. -/
def summary_line (i : Nat) (item : Record) : String :=
  let title := pyGetD item "title" (pyGetD item "p.title" (.vstr "Unknown"))
  let citations := pyGetD item "citations" (pyGetD item "p.citation_count" (.vstr "?"))
  let year := pyGetD item "year" (pyGetD item "p.year" (.vstr ""))
  let author := pyGetD item "author" (.vstr "")
  let year_str := if pyTruthy year then " (" ++ pyFmt year ++ ")" else ""
  let auth_str := if pyTruthy author then " — " ++ pyFmt author else ""
  "  " ++ natStr i ++ ". " ++ pySlice70 title ++ year_str ++ auth_str
    ++ " [" ++ pyFmt citations ++ " citations]"

/-- `ResearchAgent._summarize_observation`. -/
def summarize_observation : Obs → String
  | .odict d =>
    if (pyGet d "total_papers").isSome then
      let avg := match pyGet d "avg_citations" with
                 | some v => if pyTruthy v then v else PyVal.vint 0
                 | none => PyVal.vint 0
      "Statistics: " ++ pyFmt (pyGetD d "total_papers" (.vint 0)) ++ " papers, "
        ++ pyFmt (pyGetD d "total_authors" (.vint 0)) ++ " authors, "
        ++ pyFmt (pyGetD d "total_topics" (.vint 0)) ++ " topics, "
        ++ pyFmt (pyGetD d "total_institutions" (.vint 0))
        ++ " institutions, avg citations: " ++ round1Fmt avg
    else String.mk ((pyReprRecord d).data.take 300)   -- `str(observation)[:300]`
  | .olist rs =>
    if rs.isEmpty then "No results found."
    else
      String.intercalate "\n"
        (("Found " ++ natStr rs.length ++ " results:")
          :: ((rs.take 5).enum.map (fun p => summary_line (p.1 + 1) p.2)
              ++ (if 5 < rs.length then ["  ... and " ++ natStr (rs.length - 5) ++ " more"]
                  else [])))

/-- `ResearchAgent._has_sufficient_results`. -/
def has_sufficient_results : Obs → Bool
  | .odict d => (pyGet d "total_papers").isSome
  | .olist rs => decide (3 ≤ rs.length)

/-! #### Answer Synthesizer (`_generate_final_answer`) -/

def build_context (obs : List ObsRec) : String :=
  String.intercalate "\n"
    ((obs.enum.map (fun p =>
        ["\n[Tool " ++ natStr (p.1 + 1) ++ ": " ++ jvalFmt p.2.tool ++ "("
           ++ jvalFmt p.2.args ++ ")]",
         p.2.summary])).flatten)

def final_prompt (question context : String) : String :=
  "You are a research assistant. Answer ONLY using the exact data shown below.\n\n"
  ++ "STRICT RULES:\n- NEVER invent or calculate numbers not present in the data\n"
  ++ "- If data shows statistics like \"5 papers\", report exactly that number\n"
  ++ "- Do not guess, assume duplicates, or add/subtract from shown numbers\n"
  ++ "- Be concise and factual, cite exact titles and numbers from data\n\n"
  ++ "DATA RETRIEVED:\n" ++ context ++ "\n\nQUESTION: " ++ question
  ++ "\n\nANSWER (use only numbers and titles shown in DATA above):"

def generate_final_answer (llm : String → String) (question : String)
    (obs : List ObsRec) : String :=
  if obs.isEmpty then
    "I couldn't find relevant information for your question in the knowledge graph."
  else
    let answer := llm (final_prompt question (build_context obs))
    if answer.isEmpty then "Could not generate an answer from the retrieved data."
    else stripStr answer

/-! #### Reasoning Loop (`run`) -/

/-- How one `run()` invocation terminated: via the planner's FINISH sentinel,
via the sufficiency break, or by exhausting the step bound. -/
inductive ExitKind where
  | finished
  | brokeEarly
  | boundReached
deriving DecidableEq

/-- `run`'s result dict (`latency_s` — wall-clock time — is not modelled). -/
structure AgentResult where
  question : String
  answer : String
  thought_chain : List StepRec
  steps_taken : Nat
  success : Bool

/-- The common tail of `run` after the loop (also reached through `break`):
synthesize from all observations, `steps_taken = len(thought_chain)`,
`success = bool(answer and "couldn't find" not in answer.lower())`. -/
def exhaust_result (llm : String → String) (question : String)
    (chain : List StepRec) (obs : List ObsRec) : AgentResult :=
  let answer := generate_final_answer llm question obs
  { question := question, answer := answer, thought_chain := chain,
    steps_taken := chain.length,
    success := !answer.isEmpty && !strContains (lowerStr answer) "couldn't find" }

/-- `tool_name == "FINISH"` (false for any non-string decision value). -/
def isFinish : JVal → Bool
  | .jstr s => s == "FINISH"
  | _ => false

/-- The loop body of `ResearchAgent.run`, by recursion on the remaining
iterations of `for step in range(self.MAX_STEPS)`; `stepIdx` is the 0-based
loop variable.  Key access on a non-dict decision value raises in the source
(never produced by `_decide_action`'s own constructions); here it yields the
defaults. -/
def run_from (llm : String → String) (loads : List Char → Option JVal)
    (env : String → Option ToolImpl) (question : String) :
    Nat → Nat → List StepRec → List ObsRec → AgentResult × ExitKind
  | 0, _, chain, obs => (exhaust_result llm question chain obs, ExitKind.boundReached)
  | fuel + 1, stepIdx, chain, obs =>
    let dec := decide_action llm loads question chain (stepIdx + 1)
    let toolv := (jlookupV dec "tool").getD (JVal.jstr "keyword_search")
    let argsv := (jlookupV dec "args").getD (JVal.jdict [])
    let thought := (jlookupV dec "thought").getD (JVal.jstr "")
    if isFinish toolv then
      ({ question := question,
         answer := generate_final_answer llm question obs,
         thought_chain := chain, steps_taken := stepIdx, success := true },
       ExitKind.finished)
    else
      let observation := execute_tool env toolv argsv
      let summary := summarize_observation observation
      let chain' := chain ++ [{ step := stepIdx + 1, thought := thought, action := toolv,
                                args := argsv, observation := summary,
                                raw_results := observation }]
      let obs' := obs ++ [{ tool := toolv, args := argsv, results := observation,
                            summary := summary }]
      if has_sufficient_results observation && decide (1 ≤ stepIdx) then
        (exhaust_result llm question chain' obs', ExitKind.brokeEarly)
      else run_from llm loads env question fuel (stepIdx + 1) chain' obs'

/-- `ResearchAgent.run`, with its exit mode exposed. -/
def runEx (llm : String → String) (loads : List Char → Option JVal)
    (env : String → Option ToolImpl) (question : String) : AgentResult × ExitKind :=
  run_from llm loads env question MAX_STEPS 0 [] []

def run (llm : String → String) (loads : List Char → Option JVal)
    (env : String → Option ToolImpl) (question : String) : AgentResult :=
  (runEx llm loads env question).1

/-! #### The keyword-search tool (`_tool_keyword_search`) -/

/-- `ResearchAgent._tool_keyword_search` over a concrete store. -/
def tool_keyword_search (db : DB) (query : String) : List Record :=
  if query.isEmpty || (stripStr query).isEmpty then
    get_most_cited_papers db 10          -- empty query → top papers instead
  else
    let results := search_papers_by_keyword db query
    if results.isEmpty && decide (2 < (splitWs query).length) then
      search_papers_by_keyword db ((splitWs query).headD "")
    else results

/-! ### Concrete instances used by witnesses and counterexamples -/

/-- A `json.loads` that fails on every input (e.g. the empty responses which an
unreachable LLM produces). -/
def loadsNone : List Char → Option JVal := fun _ => none

/-- An LLM whose every call fails at the transport layer (the adapter returns
the empty string). -/
def llmEmpty : String → String := fun _ => ""

def simpleRec : Record :=
  [("title", PyVal.vstr "A Study"), ("year", PyVal.vint 2021),
   ("citations", PyVal.vint 9)]

def recs3 : List Record := List.replicate 3 simpleRec

def recs10 : List Record := List.replicate 10 simpleRec

/-- A one-step thought chain whose step observed the record list `rs`. -/
def chainOf (rs : List Record) : List StepRec :=
  [{ step := 1, thought := JVal.jstr "searching", action := JVal.jstr "keyword_search",
     args := JVal.jdict [("query", JVal.jstr "graph")],
     observation := summarize_observation (Obs.olist rs),
     raw_results := Obs.olist rs }]

def dbOne : DB :=
  { papers := [{ paper_id := "p1", title := "Graph Models", abstract := "on graphs",
                 year := some 2020, citation_count := some 12 }],
    authors := [], institutions := [], wrote := [], affiliated := [], about := [] }

def cexPaper (i : Nat) : Paper :=
  { paper_id := natStr i, title := "p" ++ natStr i, abstract := "",
    year := some 2020, citation_count := some (Int.ofNat i) }

/-- A store with `n` distinct papers, all matching the empty keyword. -/
def cexDB (n : Nat) : DB :=
  { papers := (List.range n).map cexPaper,
    authors := [], institutions := [], wrote := [], affiliated := [], about := [] }

def implKW : ToolImpl :=
  { kwcall := fun _ => .ok (Obs.olist []), poscall := fun _ => .ok (Obs.olist []) }

def implTE : ToolImpl :=
  { kwcall := fun _ => .error PyErr.typeError, poscall := fun _ => .error PyErr.otherError }

def implOther : ToolImpl :=
  { kwcall := fun _ => .error PyErr.otherError, poscall := fun _ => .ok (Obs.olist []) }

def env6 : String → Option ToolImpl := fun s =>
  if s = "keyword_search" then some implKW
  else if s = "author_search" then some implTE
  else if s = "topic_search" then some implOther
  else none

/-- Registry whose keyword search finds three records. -/
def env3 : String → Option ToolImpl := fun s =>
  if s = "keyword_search" then
    some { kwcall := fun _ => .ok (Obs.olist recs3),
           poscall := fun _ => .ok (Obs.olist recs3) }
  else none

/-- Registry whose every tool finds nothing. -/
def env0 : String → Option ToolImpl := fun _ =>
  some { kwcall := fun _ => .ok (Obs.olist []), poscall := fun _ => .ok (Obs.olist []) }

def unsafeQ : String := "MATCH (n) DETACH DELETE n"

def safeQ : String :=
  "MATCH (p:Paper) WHERE p.year > 2020 RETURN p.title ORDER BY p.year DESC LIMIT 20"

/-- LLM answering every prompt with the fixed text `RESP`. -/
def llmResp : String → String := fun _ => "RESP"

/-- `json.loads` recognizing exactly the text `RESP`, as a decision carrying an
unsafe query. -/
def loadsUnsafe : List Char → Option JVal := fun l =>
  if l = "RESP".data then some (JVal.jdict [("cypher", JVal.jstr unsafeQ)]) else none

/-- `json.loads` recognizing exactly the text `RESP`, as a result with a safe
query. -/
def loadsSafe : List Char → Option JVal := fun l =>
  if l = "RESP".data then
    some (JVal.jdict [("cypher", JVal.jstr safeQ), ("explanation", JVal.jstr "safe")])
  else none

def first_arg_value (o : JObj) : JVal :=
  match o with
  | [] => JVal.jstr ""
  | kv :: _ => kv.2

/-! ### Helper lemmas -/

theorem containsSub_nil_needle (l : List Char) : containsSub l [] = true := by
  cases l with
  | nil => rfl
  | cons c t => simp [containsSub, isPrefixL]

theorem paper_matches_empty (p : Paper) : paper_matches "" p = true := by
  unfold paper_matches
  have h : lowerStr "" = "" := rfl
  rw [h]
  unfold strContains
  rw [containsSub_nil_needle]
  rfl

theorem search_papers_by_keyword_length (db : DB) (kw : String) :
    (search_papers_by_keyword db kw).length = (db.papers.filter (paper_matches kw)).length := by
  unfold search_papers_by_keyword sortByCitationsDesc
  rw [List.length_map, List.length_insertionSort]

theorem search_by_institution_length (db : DB) (nm : String) :
    (search_by_institution db nm).length = (inst_triples db nm).length := by
  unfold search_by_institution
  rw [List.length_map, List.length_insertionSort]

theorem get_most_cited_papers_length_le (db : DB) (n : Nat) :
    (get_most_cited_papers db n).length ≤ n := by
  unfold get_most_cited_papers
  rw [List.length_map]
  exact List.length_take_le n _

/-! ### C1 — the Cypher safety gate -/

/-- C1: the safety gate of the Query Generation Adapter rejects exactly the
queries containing a denylisted mutating keyword as a whole word of the
upper-cased text (case-insensitive whole-word match), accepts every other
query, and a rejected generated query makes `generate_cypher` return an error
result with a null query. -/
theorem C1_safety_gate (q : String) :
    ((BLOCKED_CYPHER_KEYWORDS.any fun kw => containsWord (upperChars q.data) kw.data) = true →
      (safety_check q).isSome = true) ∧
    ((BLOCKED_CYPHER_KEYWORDS.any fun kw => containsWord (upperChars q.data) kw.data) = false →
      safety_check q = none) ∧
    (∀ (loads : List Char → Option JVal) (llm : String → String) (s : String) (o : JObj)
        (c : String),
      extract_json loads (llm (build_prompt q s)).data = some (JVal.jdict o) →
      missing_cypher (some (JVal.jdict o)) = Except.ok false →
      jlookup o "cypher" = some (JVal.jstr c) →
      (safety_check c).isSome = true →
      ∃ msg, generate_cypher loads llm q s =
        [("cypher", JVal.jnull), ("explanation", JVal.jstr msg),
         ("error", JVal.jstr "unsafe_query")]) := by
  refine ⟨?_, ?_, ?_⟩
  · intro h
    obtain ⟨kw, hmem, hkw⟩ := List.any_eq_true.mp h
    unfold safety_check
    have : (BLOCKED_CYPHER_KEYWORDS.find?
        (fun kw => containsWord (upperChars q.data) kw.data)).isSome = true := by
      rw [List.find?_isSome]
      exact ⟨kw, hmem, hkw⟩
    cases hfind : BLOCKED_CYPHER_KEYWORDS.find?
        (fun kw => containsWord (upperChars q.data) kw.data) with
    | none => rw [hfind] at this; simp at this
    | some kw' => simp [hfind]
  · intro h
    unfold safety_check
    have : BLOCKED_CYPHER_KEYWORDS.find?
        (fun kw => containsWord (upperChars q.data) kw.data) = none := by
      rw [List.find?_eq_none]
      intro x hx hpx
      have : BLOCKED_CYPHER_KEYWORDS.any
          (fun kw => containsWord (upperChars q.data) kw.data) = true :=
        List.any_eq_true.mpr ⟨x, hx, hpx⟩
      rw [h] at this
      exact Bool.false_ne_true this
    rw [this]
    rfl
  · intro loads llm s o c h1 h2 h3 h4
    obtain ⟨msg, hmsg⟩ := Option.isSome_iff_exists.mp h4
    refine ⟨msg, ?_⟩
    unfold generate_cypher
    rw [h1]
    simp only [h2, Bool.false_eq_true, if_false, h3, hmsg]

/-- Witness for C1: a `DETACH DELETE` query is rejected, a pure
`MATCH/WHERE/RETURN/ORDER BY/LIMIT` query is accepted, and an unsafe generated
query yields the null-query error result. -/
theorem C1_safety_gate_witness :
    (safety_check unsafeQ).isSome = true ∧
    safety_check safeQ = none ∧
    (∃ msg, generate_cypher loadsUnsafe llmResp "find papers" "schema" =
      [("cypher", JVal.jnull), ("explanation", JVal.jstr msg),
       ("error", JVal.jstr "unsafe_query")]) :=
  ⟨(C1_safety_gate unsafeQ).1 (by rfl),
   (C1_safety_gate safeQ).2.1 (by rfl),
   (C1_safety_gate "find papers").2.2 loadsUnsafe llmResp "schema"
     [("cypher", JVal.jstr unsafeQ)] unsafeQ (by rfl) (by rfl) (by rfl)
     ((C1_safety_gate unsafeQ).1 (by rfl))⟩

/-! ### C2 — result sequences crossing the tool boundary are NOT capped -/

/-- Counterexample for C2: no fixed limit bounds the record sequences returned
by the predefined searches — `search_papers_by_keyword` returns one record per
matching paper and has no `LIMIT` clause, so a store with `L + 1` matching
papers defeats any claimed cap `L`. -/
theorem C2_counterexample :
    ¬ ∃ L : Nat, ∀ (db : DB) (kw : String),
      (search_papers_by_keyword db kw).length ≤ L := by
  rintro ⟨L, h⟩
  have h1 := h (cexDB (L + 1)) ""
  rw [search_papers_by_keyword_length] at h1
  have h2 : (cexDB (L + 1)).papers.filter (paper_matches "") = (cexDB (L + 1)).papers :=
    List.filter_eq_self.mpr (fun p _ => paper_matches_empty p)
  rw [h2] at h1
  have h3 : (cexDB (L + 1)).papers.length = L + 1 := by
    unfold cexDB
    rw [List.length_map, List.length_range]
  rw [h3] at h1
  omega

/-- C2 (amended): record sequences returned by the predefined search tools are
not capped — `search_papers_by_keyword` returns one record per matching paper
and `search_by_institution` one per matched affiliation path, both without a
`LIMIT` clause; only `get_most_cited_papers` (used by the empty-query keyword
fallback, with limit 10) truncates its result to the requested limit. -/
theorem C2_amended_uncapped :
    (∀ (db : DB) (kw : String),
      (search_papers_by_keyword db kw).length =
        (db.papers.filter (paper_matches kw)).length) ∧
    (∀ (db : DB) (nm : String),
      (search_by_institution db nm).length = (inst_triples db nm).length) ∧
    (∀ (db : DB) (n : Nat), (get_most_cited_papers db n).length ≤ n) :=
  ⟨search_papers_by_keyword_length, search_by_institution_length,
   get_most_cited_papers_length_le⟩

/-! ### C3 — the loop executes at most `MAX_STEPS` tool calls -/

theorem run_from_chain_bound (llm : String → String) (loads : List Char → Option JVal)
    (env : String → Option ToolImpl) (question : String) :
    ∀ (fuel stepIdx : Nat) (chain : List StepRec) (obs : List ObsRec),
      ((run_from llm loads env question fuel stepIdx chain obs).1.thought_chain.length ≤
        chain.length + fuel) ∧
      (stepIdx = chain.length →
        (run_from llm loads env question fuel stepIdx chain obs).1.steps_taken =
          (run_from llm loads env question fuel stepIdx chain obs).1.thought_chain.length) := by
  intro fuel
  induction fuel with
  | zero =>
    intro stepIdx chain obs
    exact ⟨Nat.le_refl _, fun _ => rfl⟩
  | succ n ih =>
    intro stepIdx chain obs
    simp only [run_from]
    split
    · -- FINISH branch: no tool call this iteration
      exact ⟨Nat.le_add_right _ _, fun h => h⟩
    · split
      · -- sufficiency break after appending one step
        refine ⟨?_, fun _ => rfl⟩
        simp only [exhaust_result, List.length_append, List.length_singleton]
        omega
      · -- recursive case
        have := ih (stepIdx + 1)
          (chain ++ [{ step := stepIdx + 1,
                       thought := (jlookupV (decide_action llm loads question chain
                         (stepIdx + 1)) "thought").getD (JVal.jstr ""),
                       action := (jlookupV (decide_action llm loads question chain
                         (stepIdx + 1)) "tool").getD (JVal.jstr "keyword_search"),
                       args := (jlookupV (decide_action llm loads question chain
                         (stepIdx + 1)) "args").getD (JVal.jdict []),
                       observation := summarize_observation (execute_tool env
                         ((jlookupV (decide_action llm loads question chain
                           (stepIdx + 1)) "tool").getD (JVal.jstr "keyword_search"))
                         ((jlookupV (decide_action llm loads question chain
                           (stepIdx + 1)) "args").getD (JVal.jdict []))),
                       raw_results := execute_tool env
                         ((jlookupV (decide_action llm loads question chain
                           (stepIdx + 1)) "tool").getD (JVal.jstr "keyword_search"))
                         ((jlookupV (decide_action llm loads question chain
                           (stepIdx + 1)) "args").getD (JVal.jdict [])) }])
          (obs ++ [{ tool := (jlookupV (decide_action llm loads question chain
                       (stepIdx + 1)) "tool").getD (JVal.jstr "keyword_search"),
                     args := (jlookupV (decide_action llm loads question chain
                       (stepIdx + 1)) "args").getD (JVal.jdict []),
                     results := execute_tool env
                       ((jlookupV (decide_action llm loads question chain
                         (stepIdx + 1)) "tool").getD (JVal.jstr "keyword_search"))
                       ((jlookupV (decide_action llm loads question chain
                         (stepIdx + 1)) "args").getD (JVal.jdict [])),
                     summary := summarize_observation (execute_tool env
                       ((jlookupV (decide_action llm loads question chain
                         (stepIdx + 1)) "tool").getD (JVal.jstr "keyword_search"))
                       ((jlookupV (decide_action llm loads question chain
                         (stepIdx + 1)) "args").getD (JVal.jdict []))) }])
        refine ⟨?_, fun h => ?_⟩
        · calc _ ≤ _ := this.1
          _ ≤ chain.length + (n + 1) := by simp; omega
        · exact this.2 (by simp [h])

/-- C3: one `run()` invocation records at most `MAX_STEPS = 3` executed tool
calls in the thought chain, and `steps_taken` always equals the number of
executed tool calls — in particular a FINISH decision consumes no tool call. -/
theorem C3_step_bound (llm : String → String) (loads : List Char → Option JVal)
    (env : String → Option ToolImpl) (question : String) :
    (run llm loads env question).thought_chain.length ≤ MAX_STEPS ∧
    (run llm loads env question).steps_taken =
      (run llm loads env question).thought_chain.length := by
  have h := run_from_chain_bound llm loads env question MAX_STEPS 0 [] []
  unfold run runEx
  exact ⟨by simpa using h.1, h.2 rfl⟩

/-! ### C4 — count-phrasing questions short-circuit to `get_statistics` -/

/-- C4: whenever the lowercased question contains one of the count-phrasing
tokens, the step-1 decision is the statistics tool with empty arguments, for
every LLM and parser — i.e. without consulting the LLM. -/
theorem C4_stats_shortcut (llm : String → String) (loads : List Char → Option JVal)
    (question : String) (chain : List StepRec) :
    (count_phrases.any fun w => strContains (lowerStr question) w) = true →
    decide_action llm loads question chain 1 = JVal.jdict stats_decision := by
  intro h
  unfold decide_action
  simp [h]

/-- Witness for C4 at the question `How many papers are in the database?`. -/
theorem C4_stats_shortcut_witness :
    (count_phrases.any fun w =>
      strContains (lowerStr "How many papers are in the database?") w) = true ∧
    decide_action llmEmpty loadsNone "How many papers are in the database?" [] 1 =
      JVal.jdict stats_decision :=
  ⟨by rfl,
   C4_stats_shortcut llmEmpty loadsNone "How many papers are in the database?" [] (by rfl)⟩

/-! ### C5 — the parser tries exactly its three strategies in order -/

/-- C5: `_parse_json` / `_extract_json` equal the ordered fallback chain
“parse the stripped text whole, else parse the stripped content of the first
fenced block, else parse the first-to-last brace span, else `none`” — the
first successful parse wins and, being a total function of the text, the
parser never raises. -/
theorem C5_parser_strategy_order {J : Type} (loads : List Char → Option J)
    (t : List Char) :
    parse_json loads t =
      ((loads (stripChars t)).orElse fun _ =>
        (((fencedContent (stripChars t)).bind fun c => loads (stripChars c)).orElse fun _ =>
          (braceSpan (stripChars t)).bind loads)) := by
  unfold parse_json extract_json
  cases h1 : loads (stripChars t) with
  | some j => simp [Option.orElse, h1]
  | none =>
    cases h2 : fencedContent (stripChars t) with
    | some c =>
      cases h3 : loads (stripChars c) with
      | some j => simp [Option.orElse, h1, h2, h3]
      | none =>
        cases h4 : braceSpan (stripChars t) with
        | some m => cases h5 : loads m <;> simp [Option.orElse, h1, h2, h3, h4, h5]
        | none => simp [Option.orElse, h1, h2, h3, h4]
    | none =>
      cases h4 : braceSpan (stripChars t) with
      | some m => cases h5 : loads m <;> simp [Option.orElse, h1, h2, h4, h5]
      | none => simp [Option.orElse, h1, h2, h4]

/-! ### C6 — the Executor never propagates a failure -/

theorem first_val_jdict (o : JObj) :
    first_val (JVal.jdict o) = Except.ok (first_arg_value o) := by
  cases o <;> rfl

/-- C6: for a tool name outside the registry the Executor substitutes the
keyword-search tool on the first supplied argument value (empty string for an
empty mapping); a `TypeError` triggers exactly one positional retry with the
first supplied value, whose failure yields the empty sequence; any other
exception yields the empty sequence — including an unhashable (dict/list) tool
value, whose registry membership test and positional retry both raise, ending
in the empty sequence.  In every case a value is returned, never a raise. -/
theorem C6_executor_recovery (env : String → Option ToolImpl) (o : JObj) :
    (∀ s : String, env s = none →
      execute_tool env (JVal.jstr s) (JVal.jdict o) =
        execute_tool env (JVal.jstr "keyword_search")
          (JVal.jdict [("query", first_arg_value o)])) ∧
    (∀ name impl, env name = some impl →
      impl.kwcall o = Except.error PyErr.typeError →
        (∀ r, impl.poscall (first_arg_value o) = Except.ok r →
          execute_tool env (JVal.jstr name) (JVal.jdict o) = r) ∧
        (∀ e, impl.poscall (first_arg_value o) = Except.error e →
          execute_tool env (JVal.jstr name) (JVal.jdict o) = Obs.olist [])) ∧
    (∀ name impl, env name = some impl →
      impl.kwcall o = Except.error PyErr.otherError →
        execute_tool env (JVal.jstr name) (JVal.jdict o) = Obs.olist []) ∧
    (∀ l : List (String × JVal),
      execute_tool env (JVal.jdict l) (JVal.jdict o) = Obs.olist []) ∧
    (∀ l : List JVal,
      execute_tool env (JVal.jarr l) (JVal.jdict o) = Obs.olist []) := by
  refine ⟨?_, ?_, ?_, fun _ => rfl, fun _ => rfl⟩
  · intro s hs
    have hrhs : execute_tool env (JVal.jstr "keyword_search")
        (JVal.jdict [("query", first_arg_value o)]) =
        (match env "keyword_search" with
         | none => Obs.olist []
         | some impl =>
           match impl.kwcall [("query", first_arg_value o)] with
           | .ok r => r
           | .error PyErr.typeError =>
             match impl.poscall (first_arg_value o) with
             | .ok r => r
             | .error _ => Obs.olist []
           | .error PyErr.otherError => Obs.olist []) := by
      unfold execute_tool
      cases henv : env "keyword_search" with
      | none => simp [henv, first_val_jdict, Except.map, first_arg_value]
      | some impl => simp [henv, first_val_jdict, Except.map, first_arg_value]
    rw [hrhs]
    unfold execute_tool
    simp [hs, first_val_jdict, Except.map, first_arg_value]
  · intro name impl henv hkw
    constructor
    · intro r hr
      unfold execute_tool
      simp [henv, hkw, first_val_jdict, hr]
    · intro e he
      unfold execute_tool
      simp [henv, hkw, first_val_jdict, he]
  · intro name impl henv hkw
    unfold execute_tool
    simp [henv, hkw]

/-- Witness for C6: an unregistered tool name is redirected to keyword search;
a tool whose keyword call and positional retry both fail yields `[]`; a tool
raising a non-`TypeError` yields `[]`; an unhashable (dict) tool value yields
`[]`. -/
theorem C6_executor_recovery_witness :
    (execute_tool env6 (JVal.jstr "mystery_tool") (JVal.jdict [("x", JVal.jstr "v")]) =
      execute_tool env6 (JVal.jstr "keyword_search")
        (JVal.jdict [("query", JVal.jstr "v")])) ∧
    (execute_tool env6 (JVal.jstr "author_search") (JVal.jdict []) = Obs.olist []) ∧
    (execute_tool env6 (JVal.jstr "topic_search") (JVal.jdict []) = Obs.olist []) ∧
    (execute_tool env6 (JVal.jdict [("x", JVal.jstr "v")]) (JVal.jdict []) =
      Obs.olist []) :=
  ⟨(C6_executor_recovery env6 [("x", JVal.jstr "v")]).1 "mystery_tool" (by rfl),
   ((C6_executor_recovery env6 []).2.1 "author_search" implTE (by rfl) (by rfl)).2
      PyErr.otherError (by rfl),
   (C6_executor_recovery env6 []).2.2.1 "topic_search" implOther (by rfl) (by rfl),
   (C6_executor_recovery env6 []).2.2.2.1 [("x", JVal.jstr "v")]⟩

/-! ### C7 — query generation retries exactly once, then degrades -/

/-- C7: when the `not result or "cypher" not in result` test is `True` for the
first extraction (parse failure, falsy result, or a result lacking a `cypher`
field), the adapter retries once with the simplified prompt; when the retry's
test is also `True` it returns the explicit error result with a null query
instead of raising; when the first attempt's test is `False` the retry
response is never consulted; and the outcome depends only on the responses to
the two prompts, so no further retry ever occurs. -/
theorem C7_generation_retry (loads : List Char → Option JVal) (llm : String → String)
    (q s : String) :
    (missing_cypher (extract_json loads (llm (build_prompt q s)).data) =
       Except.ok true →
     missing_cypher (extract_json loads (llm (build_simple_prompt q)).data) =
       Except.ok true →
     generate_cypher loads llm q s = fail_dict) ∧
    (missing_cypher (extract_json loads (llm (build_prompt q s)).data) =
       Except.ok false →
     ∀ llm' : String → String, llm' (build_prompt q s) = llm (build_prompt q s) →
       generate_cypher loads llm' q s = generate_cypher loads llm q s) ∧
    (∀ llm' : String → String, llm' (build_prompt q s) = llm (build_prompt q s) →
       llm' (build_simple_prompt q) = llm (build_simple_prompt q) →
       generate_cypher loads llm' q s = generate_cypher loads llm q s) := by
  refine ⟨?_, ?_, ?_⟩
  · intro h1 h2
    unfold generate_cypher
    simp only [h1, if_true, h2]
  · intro h llm' hagree
    unfold generate_cypher
    rw [hagree]
    simp only [h, Bool.false_eq_true, if_false]
  · intro llm' h1 h2
    unfold generate_cypher
    rw [h1, h2]

/-- Witness for C7: with an unreachable LLM both attempts fail and the error
result is returned; with a parsable first response the retry response is
irrelevant; and the two-response dependence instanced at the failing LLM. -/
theorem C7_generation_retry_witness :
    missing_cypher (extract_json loadsNone (llmEmpty (build_prompt "q" "s")).data) =
      Except.ok true ∧
    generate_cypher loadsNone llmEmpty "q" "s" = fail_dict ∧
    missing_cypher (extract_json loadsSafe (llmResp (build_prompt "q" "s")).data) =
      Except.ok false ∧
    generate_cypher loadsSafe llmResp "q" "s" = generate_cypher loadsSafe llmResp "q" "s" ∧
    generate_cypher loadsNone llmEmpty "q" "s" = generate_cypher loadsNone llmEmpty "q" "s" :=
  ⟨by rfl,
   (C7_generation_retry loadsNone llmEmpty "q" "s").1 (by rfl) (by rfl),
   by rfl,
   (C7_generation_retry loadsSafe llmResp "q" "s").2.1 (by rfl) llmResp rfl,
   (C7_generation_retry loadsNone llmEmpty "q" "s").2.2 llmEmpty rfl rfl⟩

/-! ### C8 — the early-finish shortcut misses result counts ending in 0 -/

/-- C8 (code bug exhibit): the early-finish shortcut fires after a 3-record
step (the decision is the FINISH sentinel without consulting the LLM), but
after a 10-record step — although the previous step returned results, which
the source's own comment says should finish now — the summary
`Found 10 results:` also contains the substring `0 results`, the guard fails,
and the planner falls through to the LLM path (here: the keyword fallback). -/
theorem C8_early_finish_misses_ten :
    (decide_action llmEmpty loadsNone "papers on transformers please"
        (chainOf recs3) 2 = JVal.jdict finish_decision) ∧
    recs10.length = 10 ∧
    strContains (last_observation (chainOf recs10)) "Found" = true ∧
    strContains (last_observation (chainOf recs10)) "0 results" = true ∧
    (decide_action llmEmpty loadsNone "papers on transformers please"
        (chainOf recs10) 2 =
      JVal.jdict (fallback_decision "papers on transformers please")) :=
  ⟨by rfl, by rfl, by rfl, by rfl, by rfl⟩

/-! ### C9 — semantics of the `success` flag -/

theorem run_from_success_flag (llm : String → String) (loads : List Char → Option JVal)
    (env : String → Option ToolImpl) (question : String) :
    ∀ (fuel stepIdx : Nat) (chain : List StepRec) (obs : List ObsRec),
      ((run_from llm loads env question fuel stepIdx chain obs).2 = ExitKind.finished →
        (run_from llm loads env question fuel stepIdx chain obs).1.success = true) ∧
      ((run_from llm loads env question fuel stepIdx chain obs).2 = ExitKind.boundReached →
        (run_from llm loads env question fuel stepIdx chain obs).1.success =
          (!(run_from llm loads env question fuel stepIdx chain obs).1.answer.isEmpty &&
           !strContains
             (lowerStr (run_from llm loads env question fuel stepIdx chain obs).1.answer)
             "couldn't find")) := by
  intro fuel
  induction fuel with
  | zero =>
    intro stepIdx chain obs
    refine ⟨fun h => ?_, fun _ => rfl⟩
    cases h
  | succ n ih =>
    intro stepIdx chain obs
    simp only [run_from]
    split
    · refine ⟨fun _ => rfl, fun h => ?_⟩
      cases h
    · split
      · refine ⟨fun h => ?_, fun h => ?_⟩ <;> cases h
      · exact ih (stepIdx + 1) _ _

/-- C9: a run that exits through the planner's FINISH sentinel has
`success = true` regardless of the answer text; a run that exhausts the step
bound has `success` equal to “the answer is non-empty and its lowercase text
does not contain `couldn't find`”. -/
theorem C9_success_flag (llm : String → String) (loads : List Char → Option JVal)
    (env : String → Option ToolImpl) (question : String) :
    ((runEx llm loads env question).2 = ExitKind.finished →
      (runEx llm loads env question).1.success = true) ∧
    ((runEx llm loads env question).2 = ExitKind.boundReached →
      (runEx llm loads env question).1.success =
        (!(runEx llm loads env question).1.answer.isEmpty &&
         !strContains (lowerStr (runEx llm loads env question).1.answer)
           "couldn't find")) := by
  unfold runEx
  exact run_from_success_flag llm loads env question MAX_STEPS 0 [] []

/-- Witness for C9: a registry finding 3 records makes the loop finish through
the sentinel at step 2 with `success = true`; a registry finding nothing makes
the loop exhaust its bound, and `success` equals the answer-based formula. -/
theorem C9_success_flag_witness :
    ((runEx llmEmpty loadsNone env3 "tell me about graph learning").2 =
      ExitKind.finished ∧
     (runEx llmEmpty loadsNone env3 "tell me about graph learning").1.success = true) ∧
    ((runEx llmEmpty loadsNone env0 "tell me about graph learning").2 =
      ExitKind.boundReached ∧
     (runEx llmEmpty loadsNone env0 "tell me about graph learning").1.success =
       (!(runEx llmEmpty loadsNone env0 "tell me about graph learning").1.answer.isEmpty &&
        !strContains
          (lowerStr (runEx llmEmpty loadsNone env0 "tell me about graph learning").1.answer)
          "couldn't find")) :=
  ⟨⟨by rfl,
    (C9_success_flag llmEmpty loadsNone env3 "tell me about graph learning").1 (by rfl)⟩,
   ⟨by rfl,
    (C9_success_flag llmEmpty loadsNone env0 "tell me about graph learning").2 (by rfl)⟩⟩

/-! ### C10 — the empty-query behaviour of the keyword-search tool -/

/-- C10: for a query that is empty or whitespace-only, the keyword-search tool
performs no keyword search and returns the 10 most-cited papers instead, so an
empty-query invocation can yield a non-empty result list. -/
theorem C10_empty_query_top_papers :
    (∀ (db : DB) (q : String), stripStr q = "" →
      tool_keyword_search db q = get_most_cited_papers db 10) ∧
    tool_keyword_search dbOne "" ≠ [] := by
  constructor
  · intro db q h
    unfold tool_keyword_search
    rw [h]
    simp only [show ("" : String).isEmpty = true from rfl, Bool.or_true, if_true]
  · decide

/-- Witness for C10 at a whitespace-only query over a one-paper store. -/
theorem C10_empty_query_top_papers_witness :
    stripStr "   " = "" ∧
    tool_keyword_search dbOne "   " = get_most_cited_papers dbOne 10 :=
  ⟨by rfl, C10_empty_query_top_papers.1 dbOne "   " (by rfl)⟩
